import Mathlib

/-!
Verification of the protocol gateway in `src/main.py` (google-ads-mcp).

The gateway is a Starlette app: a `BearerAuth` middleware (lines 56-75)
decides allow/deny per request, `mcp_entry` (lines 80-87) answers GET/HEAD
probes with a fixed JSON body and delegates everything else to the MCP ASGI
app, `healthz` (lines 52-53) returns plaintext `ok`, and the route table
(lines 90-101) mounts `/mcp` and `/mcp/` onto `mcp_entry` with
`redirect_slashes = False`.  The `search` MCP tool (lines 37-49) caps the
rows it accumulates at 500.

Strings are embedded as lists of characters so that Python's `str.strip`,
`str.lower`, slicing and `split(" ", 1)` translate to structural recursion.
-/

/-- Python strings, embedded as lists of characters. -/
abbrev Str := List Char

/-- The ASCII whitespace characters stripped by Python's `str.strip()`. -/
def pyWhitespace (c : Char) : Bool :=
  c = ' ' || c = '\t' || c = '\n' || c = '\x0d' || c = '\x0b' || c = '\x0c'

/-- Python `s.strip()`: drop leading and trailing whitespace. -/
def pyStrip (s : Str) : Str :=
  ((s.dropWhile pyWhitespace).reverse.dropWhile pyWhitespace).reverse

/-- Python `s.lower()` on the ASCII strings handled here. -/
def pyLower (s : Str) : Str := s.map Char.toLower

/-- Python `s.split(" ", 1)[1]` when `s` contains a space: everything after
the first space.  In `BearerAuth.dispatch` this is only evaluated under the
guard `auth.lower().startswith("bearer ")`, which guarantees a space. -/
def afterFirstSpace : Str → Str
  | [] => []
  | c :: cs => if c = ' ' then cs else afterFirstSpace cs

/-- Python `(x or "")` applied to an optional header / environment value. -/
def orEmpty : Option Str → Str
  | none => []
  | some s => s

/-- HTTP methods appearing in the gateway's branching. -/
inductive Method
  | GET | HEAD | OPTIONS | POST | PUT | DELETE | PATCH
deriving DecidableEq, Repr

/-- The auth decision taken by `BearerAuth.dispatch` (spec: AuthResult). -/
inductive AuthResult
  | Allowed | Denied
deriving DecidableEq, Repr

/-- The decision logic of `BearerAuth.dispatch` (src/main.py lines 57-75):
GET/HEAD/OPTIONS pass; otherwise the required token is read from the
environment and stripped, the Authorization header is stripped, one pair of
surrounding double quotes is removed, a case-insensitive `Bearer ` prefix is
dropped, and the request is denied iff a required token is set and the
extracted token differs from it. -/
def authDecision (method : Method) (authHeader : Option Str)
    (envToken : Option Str) : AuthResult :=
  if method = .GET ∨ method = .HEAD ∨ method = .OPTIONS then
    .Allowed
  else
    let required := pyStrip (orEmpty envToken)
    let auth0 := pyStrip (orEmpty authHeader)
    let auth1 :=
      if 2 ≤ auth0.length ∧ auth0.head? = some '"' ∧ auth0.getLast? = some '"'
      then pyStrip ((auth0.drop 1).dropLast)
      else auth0
    let token :=
      if ("bearer ".data).isPrefixOf (pyLower auth1)
      then pyStrip (afterFirstSpace auth1)
      else auth1
    if required ≠ [] ∧ token ≠ required then .Denied else .Allowed

example : authDecision .POST (some "Bearer T".data) (some "T".data) = .Allowed := by decide
example : authDecision .POST (some "\"Bearer T\"".data) (some "T".data) = .Allowed := by decide
example : authDecision .POST (some "T".data) (some "T".data) = .Allowed := by decide
example : authDecision .POST (some "Bearer Twrong".data) (some "T".data) = .Denied := by decide
example : authDecision .POST none (some "T".data) = .Denied := by decide

/-- The body format of a response: JSON (`JSONResponse`) or plaintext
(`PlainTextResponse`). -/
inductive MediaType
  | json | text
deriving DecidableEq, Repr

/-- An HTTP response as produced by the gateway: a status code, the body
format, and the rendered body. -/
structure Response where
  status : Nat
  media : MediaType
  body : Str
deriving DecidableEq, Repr

/-- An inbound HTTP request as seen by the gateway. -/
structure Request where
  method : Method
  path : Str
  authorization : Option Str
  body : Str
deriving DecidableEq, Repr

/-- The response of `healthz` (src/main.py lines 52-53):
`PlainTextResponse("ok")`, status 200. -/
def healthzResponse : Response := { status := 200, media := .text, body := "ok".data }

/-- The rendered body of `JSONResponse(\x7b"error": "Unauthorized"\x7d)`
(src/main.py line 73); Starlette renders JSON with compact separators. -/
def unauthorizedBody : Str := "\x7b\"error\":\"Unauthorized\"\x7d".data

/-- The 401 response returned by `BearerAuth.dispatch` on a token mismatch
(src/main.py line 73). -/
def unauthorizedResponse : Response :=
  { status := 401, media := .json, body := unauthorizedBody }

/-- The rendered body of
`JSONResponse(\x7b"status": "ok", "server": "GoogleAds-MCP"\x7d)`
(src/main.py line 83). -/
def probeOkBody : Str := "\x7b\"status\":\"ok\",\"server\":\"GoogleAds-MCP\"\x7d".data

/-- The 200 probe response that `mcp_entry` sends for GET/HEAD
(src/main.py lines 82-85). -/
def probeOkResponse : Response :=
  { status := 200, media := .json, body := probeOkBody }

/-- The entry app mounted at the protocol mount (`mcp_entry`,
src/main.py lines 80-87): GET/HEAD get the fixed probe JSON and the MCP app
is not called; any other method is forwarded to the delegate MCP ASGI app.
The returned boolean records whether the delegate was invoked. -/
def mcpEntry (delegate : Request → Response) (req : Request) : Response × Bool :=
  if req.method = .GET ∨ req.method = .HEAD then (probeOkResponse, false)
  else (delegate req, true)

/-- Which ASGI app the Starlette router selects for a path. -/
inductive Handler
  | healthApp | mcpApp | noRoute
deriving DecidableEq, Repr

/-- Modelled from the spec: Starlette's route matching is library code not
present in this repository; only its configuration (src/main.py lines
90-101: `Route("/healthz", healthz)`, `Mount("/mcp", app=mcp_entry)`,
`Mount("/mcp/", app=mcp_entry)`, `redirect_slashes = False`) is.  Per the
spec (section 4.2), the health path matches exactly and method-agnostically,
the protocol mount matches with or without a single trailing slash (and any
subpath, per mount semantics) with the two mounts collapsing onto one
logical route, no redirect is issued, and any other path is not found. -/
def selectHandler (path : Str) : Handler :=
  if path = "/healthz".data then .healthApp
  else if path = "/mcp".data ∨ ("/mcp/".data).isPrefixOf path then .mcpApp
  else .noRoute

/-- Modelled from the spec: the router's 404 for unmatched paths (spec
section 4.2: standard 404, no body contract specified). -/
def notFoundResponse : Response :=
  { status := 404, media := .text, body := "Not Found".data }

/-- The inner app the middleware's `call_next` reaches: route by path, then
run the selected handler.  The boolean records whether the delegate MCP app
was invoked. -/
def routerApp (delegate : Request → Response) (req : Request) : Response × Bool :=
  match selectHandler req.path with
  | .healthApp => (healthzResponse, false)
  | .mcpApp => mcpEntry delegate req
  | .noRoute => (notFoundResponse, false)

/-- The outcome of one request through the whole gateway. -/
structure GatewayResult where
  response : Response
  callNextInvoked : Bool
  delegateInvoked : Bool
deriving DecidableEq, Repr

/-- The full gateway: `BearerAuth` wraps the routed app (src/main.py line
98, `app.add_middleware(BearerAuth)`), so every request is first decided by
`authDecision`; on Denied the middleware answers 401 itself and `call_next`
is never invoked (src/main.py lines 72-73), on Allowed the request proceeds
to the router. -/
def gateway (envToken : Option Str) (delegate : Request → Response)
    (req : Request) : GatewayResult :=
  match authDecision req.method req.authorization envToken with
  | .Denied =>
      { response := unauthorizedResponse, callNextInvoked := false,
        delegateInvoked := false }
  | .Allowed =>
      let r := routerApp delegate req
      { response := r.1, callNextInvoked := true, delegateInvoked := r.2 }

/-- The route targets of the spec's data model, with a NotFound case for
unmatched paths. -/
inductive RouteTarget
  | Health | ProbeEcho | Delegate | NotFound
deriving DecidableEq, Repr

/-- The spec's `route(method, path) -> RouteTarget`, read off the embedded
router and the method branch of `mcp_entry`. -/
def route (method : Method) (path : Str) : RouteTarget :=
  match selectHandler path with
  | .healthApp => .Health
  | .mcpApp => if method = .GET ∨ method = .HEAD then .ProbeEcho else .Delegate
  | .noRoute => .NotFound

/-- The accumulation loop of the `search` tool (src/main.py lines 44-48):
rows are appended one at a time (each converted by `MessageToDict`, embedded
as the abstract conversion `f`), and the loop breaks as soon as 500 rows
have been accumulated. -/
def searchLoop (f : α → β) (acc : List β) : List α → List β
  | [] => acc
  | row :: rest =>
      let acc2 := acc ++ [f row]
      if 500 ≤ acc2.length then acc2 else searchLoop f acc2 rest

/-- The `search` tool's row collection (src/main.py lines 36-49), over the
stream of rows returned by the external `GoogleAdsService.search` call. -/
def searchRows (f : α → β) (stream : List α) : List β :=
  searchLoop f [] stream

example : route .GET "/mcp".data = .ProbeEcho := by decide
example : route .POST "/mcp/".data = .Delegate := by decide
example : route .OPTIONS "/mcp".data = .Delegate := by decide
example : route .POST "/healthz".data = .Health := by decide
example :
    gateway (some "T".data) (fun _ => notFoundResponse)
      { method := .POST, path := "/healthz".data, authorization := none,
        body := [] } =
    { response := unauthorizedResponse, callNextInvoked := false,
      delegateInvoked := false } := by decide
set_option maxRecDepth 4000 in
example : searchRows (fun n : Nat => n) (List.range 600) = List.range 500 := by
  decide

/-! Helper lemmas shared by the claim theorems. -/

/-- Requests with an auth-exempt method (GET/HEAD/OPTIONS) are always
allowed, whatever the header and configured token. -/
theorem authDecision_exempt (m : Method) (a t : Option Str)
    (h : m = .GET ∨ m = .HEAD ∨ m = .OPTIONS) :
    authDecision m a t = .Allowed := by
  rcases h with h | h | h <;> subst h <;> rfl

/-- Stripping a string of whitespace characters only yields the empty
string. -/
theorem pyStrip_eq_nil_of_all_ws (ws : Str)
    (h : ∀ c ∈ ws, pyWhitespace c = true) : pyStrip ws = [] := by
  have h1 : ws.dropWhile pyWhitespace = [] := List.dropWhile_eq_nil_iff.mpr h
  simp [pyStrip, h1]

/-- When the configured token strips to empty, every POST is allowed. -/
theorem authDecision_post_required_empty (a t : Option Str)
    (ht : pyStrip (orEmpty t) = []) :
    authDecision .POST a t = .Allowed := by
  simp [authDecision, ht]

/-- Either of the two mount-path spellings selects the MCP entry app. -/
theorem selectHandler_mcp (p : Str)
    (hp : p = "/mcp".data ∨ p = "/mcp/".data) :
    selectHandler p = .mcpApp := by
  rcases hp with hp | hp <;> subst hp <;> decide

/-- Every response the gateway produces is one of the five possible
outcomes: the middleware's 401, the health body, the probe body, the 404,
or whatever the delegate returned. -/
theorem gateway_response_cases (t : Option Str) (d : Request → Response)
    (req : Request) :
    (gateway t d req).response = unauthorizedResponse ∨
    (gateway t d req).response = healthzResponse ∨
    (gateway t d req).response = probeOkResponse ∨
    (gateway t d req).response = notFoundResponse ∨
    (gateway t d req).response = d req := by
  unfold gateway routerApp mcpEntry
  cases authDecision req.method req.authorization t with
  | Denied => simp
  | Allowed =>
      cases selectHandler req.path with
      | healthApp => simp
      | noRoute => simp
      | mcpApp =>
          by_cases hm : req.method = .GET ∨ req.method = .HEAD
          · simp [hm]
          · simp [hm]

/-! The claim theorems. -/

/-- C1: with requiredToken `T`, a POST with header `Bearer T`, quoted
`"Bearer T"`, or bare `T` is Allowed, while `Bearer Twrong` and an absent
header are Denied. -/
theorem c1_post_auth_table :
    authDecision .POST (some "Bearer T".data) (some "T".data) = .Allowed ∧
    authDecision .POST (some "\"Bearer T\"".data) (some "T".data) = .Allowed ∧
    authDecision .POST (some "T".data) (some "T".data) = .Allowed ∧
    authDecision .POST (some "Bearer Twrong".data) (some "T".data) = .Denied ∧
    authDecision .POST none (some "T".data) = .Denied := by
  decide

/-- C2: whenever the auth decision is Denied, the gateway answers with
status 401 and JSON body containing the Unauthorized error, and neither the
routed app (call next) nor the MCP delegate is ever invoked. -/
theorem c2_denied_responds_401 (t : Option Str) (d : Request → Response)
    (req : Request)
    (h : authDecision req.method req.authorization t = .Denied) :
    (gateway t d req).response.status = 401 ∧
    (gateway t d req).response.media = .json ∧
    (gateway t d req).response.body = unauthorizedBody ∧
    (gateway t d req).callNextInvoked = false ∧
    (gateway t d req).delegateInvoked = false := by
  simp [gateway, h, unauthorizedResponse]

/-- Witness for C2 at a concrete denied request: POST to the mount with no
header while the required token is `T`. -/
theorem c2_denied_responds_401_witness :
    (gateway (some "T".data) (fun _ => notFoundResponse)
        { method := .POST, path := "/mcp".data, authorization := none,
          body := [] }).response.status = 401 ∧
    (gateway (some "T".data) (fun _ => notFoundResponse)
        { method := .POST, path := "/mcp".data, authorization := none,
          body := [] }).response.media = .json ∧
    (gateway (some "T".data) (fun _ => notFoundResponse)
        { method := .POST, path := "/mcp".data, authorization := none,
          body := [] }).response.body = unauthorizedBody ∧
    (gateway (some "T".data) (fun _ => notFoundResponse)
        { method := .POST, path := "/mcp".data, authorization := none,
          body := [] }).callNextInvoked = false ∧
    (gateway (some "T".data) (fun _ => notFoundResponse)
        { method := .POST, path := "/mcp".data, authorization := none,
          body := [] }).delegateInvoked = false :=
  c2_denied_responds_401 (some "T".data) (fun _ => notFoundResponse)
    { method := .POST, path := "/mcp".data, authorization := none, body := [] }
    (by decide)

/-- C4: GET, HEAD and OPTIONS requests are always allowed by the auth
decision, for every header value (including absent) and every configured
token. -/
theorem c4_safe_methods_allowed (a t : Option Str) :
    authDecision .GET a t = .Allowed ∧
    authDecision .HEAD a t = .Allowed ∧
    authDecision .OPTIONS a t = .Allowed :=
  ⟨authDecision_exempt .GET a t (Or.inl rfl),
   authDecision_exempt .HEAD a t (Or.inr (Or.inl rfl)),
   authDecision_exempt .OPTIONS a t (Or.inr (Or.inr rfl))⟩

/-- C5: when the required token is unset or empty, every POST is allowed
regardless of the Authorization header. -/
theorem c5_no_required_token_allows_post (a : Option Str) :
    authDecision .POST a none = .Allowed ∧
    authDecision .POST a (some []) = .Allowed :=
  ⟨authDecision_post_required_empty a none rfl,
   authDecision_post_required_empty a (some []) rfl⟩

/-- C10: a required token consisting only of whitespace is stripped to
empty, hence behaves exactly like an unset token: every POST is allowed
regardless of its Authorization header. -/
theorem c10_whitespace_token_like_unset (ws : Str) (a : Option Str)
    (h : ∀ c ∈ ws, pyWhitespace c = true) :
    authDecision .POST a (some ws) = .Allowed ∧
    authDecision .POST a (some ws) = authDecision .POST a none := by
  have h1 : authDecision .POST a (some ws) = .Allowed :=
    authDecision_post_required_empty a (some ws)
      (pyStrip_eq_nil_of_all_ws ws h)
  exact ⟨h1, h1.trans (authDecision_post_required_empty a none rfl).symm⟩

/-- Witness for C10 at the whitespace-only token of two spaces and a tab,
with a non-matching header present. -/
theorem c10_whitespace_token_like_unset_witness :
    authDecision .POST (some "Bearer X".data) (some "  \t".data) = .Allowed ∧
    authDecision .POST (some "Bearer X".data) (some "  \t".data) =
      authDecision .POST (some "Bearer X".data) none :=
  c10_whitespace_token_like_unset "  \t".data (some "Bearer X".data)
    (by decide)

/-- C3 counterexample: the auth middleware wraps the whole app, so a POST
to /healthz with a required token set and no header is denied with 401 and
never reaches the health handler, refuting the claim that every method on
the health path bypasses the auth decision and yields 200 ok. -/
theorem c3_health_counterexample :
    (gateway (some "T".data) (fun _ => notFoundResponse)
        { method := .POST, path := "/healthz".data, authorization := none,
          body := [] }).response.status = 401 ∧
    (gateway (some "T".data) (fun _ => notFoundResponse)
        { method := .POST, path := "/healthz".data, authorization := none,
          body := [] }).response ≠ healthzResponse ∧
    (gateway (some "T".data) (fun _ => notFoundResponse)
        { method := .POST, path := "/healthz".data, authorization := none,
          body := [] }).callNextInvoked = false := by
  decide

/-- C3 amended: a request to the health path is still routed through the
auth middleware; for the exempt methods GET/HEAD/OPTIONS (and more generally
whenever the auth decision allows) it is handled by the health handler with
the fixed 200 plaintext ok and the delegate untouched, while a denied
request is answered 401 without reaching the health handler. -/
theorem c3_health_amended (t : Option Str) (d : Request → Response)
    (req : Request) (hp : req.path = "/healthz".data) :
    ((req.method = .GET ∨ req.method = .HEAD ∨ req.method = .OPTIONS) →
      gateway t d req =
        { response := healthzResponse, callNextInvoked := true,
          delegateInvoked := false }) ∧
    (authDecision req.method req.authorization t = .Allowed →
      gateway t d req =
        { response := healthzResponse, callNextInvoked := true,
          delegateInvoked := false }) ∧
    (authDecision req.method req.authorization t = .Denied →
      gateway t d req =
        { response := unauthorizedResponse, callNextInvoked := false,
          delegateInvoked := false }) := by
  have hsel : selectHandler req.path = .healthApp := by rw [hp]; decide
  refine ⟨fun hm => ?_, fun ha => ?_, fun ha => ?_⟩
  · have ha := authDecision_exempt req.method req.authorization t hm
    simp [gateway, ha, routerApp, hsel]
  · simp [gateway, ha, routerApp, hsel]
  · simp [gateway, ha]

/-- Witness for C3 amended: a GET to /healthz with no header and a required
token set returns the plaintext ok without touching the delegate. -/
theorem c3_health_amended_witness :
    gateway (some "T".data) (fun _ => notFoundResponse)
      { method := .GET, path := "/healthz".data, authorization := none,
        body := [] } =
      { response := healthzResponse, callNextInvoked := true,
        delegateInvoked := false } :=
  (c3_health_amended (some "T".data) (fun _ => notFoundResponse)
      { method := .GET, path := "/healthz".data, authorization := none,
        body := [] } rfl).1 (Or.inl rfl)

/-- C6: at the protocol mount entry, GET and HEAD get the fixed 200 probe
JSON (a constant, hence independent of the request body) without invoking
the delegate, and every other method is forwarded to the delegate MCP
app. -/
theorem c6_mcp_entry_branches (d : Request → Response) (req : Request) :
    ((req.method = .GET ∨ req.method = .HEAD) →
      mcpEntry d req = (probeOkResponse, false)) ∧
    (req.method ≠ .GET → req.method ≠ .HEAD →
      mcpEntry d req = (d req, true)) := by
  constructor
  · intro h; simp [mcpEntry, h]
  · intro h1 h2; simp [mcpEntry, h1, h2]

/-- Witness for C6: a concrete GET gets the probe response and a concrete
POST is forwarded to the delegate. -/
theorem c6_mcp_entry_branches_witness :
    mcpEntry (fun _ => notFoundResponse)
      { method := .GET, path := "/mcp".data, authorization := none,
        body := "ignored".data } = (probeOkResponse, false) ∧
    mcpEntry (fun _ => notFoundResponse)
      { method := .POST, path := "/mcp".data, authorization := none,
        body := [] } =
      ((fun _ => notFoundResponse)
        ({ method := .POST, path := "/mcp".data, authorization := none,
           body := [] } : Request), true) :=
  ⟨(c6_mcp_entry_branches (fun _ => notFoundResponse)
      { method := .GET, path := "/mcp".data, authorization := none,
        body := "ignored".data }).1 (Or.inl rfl),
   (c6_mcp_entry_branches (fun _ => notFoundResponse)
      { method := .POST, path := "/mcp".data, authorization := none,
        body := [] }).2 (by decide) (by decide)⟩

/-- C7: for every method the two spellings of the mount path select the
same route target, and the gateway never produces a 3xx of its own for
either path: any 3xx response is exactly what the delegate returned. -/
theorem c7_trailing_slash_idempotent :
    (∀ m : Method, route m "/mcp".data = route m "/mcp/".data) ∧
    (∀ (t : Option Str) (d : Request → Response) (req : Request),
      req.path = "/mcp".data ∨ req.path = "/mcp/".data →
      300 ≤ (gateway t d req).response.status →
      (gateway t d req).response.status < 400 →
      (gateway t d req).response = d req) := by
  constructor
  · intro m; cases m <;> decide
  · intro t d req _hp h1 h2
    rcases gateway_response_cases t d req with h | h | h | h | h
    · rw [h] at h2; exact absurd h2 (by decide)
    · rw [h] at h1; exact absurd h1 (by decide)
    · rw [h] at h1; exact absurd h1 (by decide)
    · rw [h] at h2; exact absurd h2 (by decide)
    · exact h

/-- Witness for C7 with a delegate that answers 307 to a POST on the bare
mount path: the gateway's 3xx is exactly the delegate's response. -/
theorem c7_trailing_slash_idempotent_witness :
    (gateway none
        (fun _ => ({ status := 307, media := .text, body := [] } : Response))
        { method := .POST, path := "/mcp".data, authorization := none,
          body := [] }).response =
      (fun _ => ({ status := 307, media := .text, body := [] } : Response))
        ({ method := .POST, path := "/mcp".data, authorization := none,
           body := [] } : Request) :=
  c7_trailing_slash_idempotent.2 none
    (fun _ => ({ status := 307, media := .text, body := [] } : Response))
    { method := .POST, path := "/mcp".data, authorization := none, body := [] }
    (Or.inl rfl) (by decide) (by decide)

/-- C8 counterexample: an OPTIONS request at the mount is routed to the
delegate, not ProbeEcho -- `mcp_entry` only answers GET and HEAD itself and
forwards everything else to the MCP app. -/
theorem c8_options_counterexample :
    route .OPTIONS "/mcp".data = .Delegate ∧
    route .OPTIONS "/mcp".data ≠ .ProbeEcho ∧
    mcpEntry (fun _ => notFoundResponse)
      { method := .OPTIONS, path := "/mcp".data, authorization := none,
        body := [] } = (notFoundResponse, true) := by
  decide

/-- C8 amended: an OPTIONS request to the protocol mount is auth-exempt,
but it is forwarded to the delegate MCP app rather than answered by the
ProbeEcho logic. -/
theorem c8_options_amended (t : Option Str) (d : Request → Response)
    (req : Request) (hm : req.method = .OPTIONS)
    (hp : req.path = "/mcp".data ∨ req.path = "/mcp/".data) :
    authDecision req.method req.authorization t = .Allowed ∧
    gateway t d req =
      { response := d req, callNextInvoked := true, delegateInvoked := true } := by
  have ha : authDecision req.method req.authorization t = .Allowed :=
    authDecision_exempt req.method req.authorization t
      (by rw [hm]; exact Or.inr (Or.inr rfl))
  have hsel : selectHandler req.path = .mcpApp := selectHandler_mcp req.path hp
  refine ⟨ha, ?_⟩
  have ha2 : authDecision .OPTIONS req.authorization t = .Allowed := by
    rw [← hm]; exact ha
  simp [gateway, ha2, routerApp, hsel, mcpEntry, hm]

/-- Witness for C8 amended at a concrete OPTIONS request to the bare mount
path with no header and a required token configured. -/
theorem c8_options_amended_witness :
    authDecision .OPTIONS none (some "T".data) = .Allowed ∧
    gateway (some "T".data) (fun _ => notFoundResponse)
      { method := .OPTIONS, path := "/mcp".data, authorization := none,
        body := [] } =
      { response :=
          (fun _ => notFoundResponse)
            ({ method := .OPTIONS, path := "/mcp".data, authorization := none,
               body := [] } : Request),
        callNextInvoked := true, delegateInvoked := true } :=
  c8_options_amended (some "T".data) (fun _ => notFoundResponse)
    { method := .OPTIONS, path := "/mcp".data, authorization := none,
      body := [] } rfl (Or.inl rfl)

/-- The search accumulation loop collects exactly the first
`500 - acc.length` remaining rows when fewer than 500 are already
accumulated. -/
theorem searchLoop_eq_take (f : α → β) :
    ∀ (l : List α) (acc : List β), acc.length < 500 →
      searchLoop f acc l = acc ++ (l.take (500 - acc.length)).map f := by
  intro l
  induction l with
  | nil => intro acc _; simp [searchLoop]
  | cons row rest ih =>
      intro acc hacc
      simp only [searchLoop]
      have hlen : (acc ++ [f row]).length = acc.length + 1 := by simp
      by_cases h5 : 500 ≤ acc.length + 1
      · rw [if_pos (by rw [hlen]; exact h5)]
        have h1 : 500 - acc.length = 1 := by omega
        rw [h1]
        simp
      · rw [if_neg (by rw [hlen]; exact h5)]
        rw [ih (acc ++ [f row]) (by rw [hlen]; omega)]
        have htake : 500 - acc.length = (500 - (acc.length + 1)) + 1 := by
          omega
        rw [htake, hlen]
        simp [List.take_succ_cons]

/-- C9: for every stream of rows and every row conversion, the search tool
returns the first 500 rows (converted) and hence never more than 500
records: the loop breaks as soon as 500 rows are accumulated. -/
theorem c9_search_row_cap (f : α → β) (stream : List α) :
    searchRows f stream = (stream.take 500).map f ∧
    (searchRows f stream).length ≤ 500 := by
  have h : searchRows f stream = (stream.take 500).map f := by
    have h0 := searchLoop_eq_take f stream [] (by norm_num)
    simpa [searchRows] using h0
  refine ⟨h, ?_⟩
  rw [h, List.length_map, List.length_take]
  exact min_le_left _ _
